import Mathlib

/-!
Verification of the fioc-server-utils token-proxying bridge.

The repository exposes two cooperating functions (in two close variants):

* a dispatcher builder (`buildIOCServerHandler` in `src/common/utils.ts`,
  `buildIoCServerHandler` in the second source variant) that wraps a
  server-side dependency container and returns an async dispatch function
  `(tokenKey, ...params)`: it reconstructs a token from the string key,
  resolves it in the container, checks the resolved value is callable,
  and invokes it with the forwarded arguments; and
* a proxy factory (`serverFactoryProxy` / `createServerControllerProxy`)
  that, given a token, returns a factory descriptor whose produced proxy
  function forwards `(Symbol.keyFor(token) ?? "UNDEFINED", ...args)` to
  the dispatcher when running in a client execution context
  (`typeof window !== "undefined"`), and throws a misuse error when
  running in a server context.

The embedding below is monad-polymorphic: asynchronous JavaScript
computations (promises that either fulfil with a value or reject with an
error) are modelled as computations in an arbitrary monad `m` with
`MonadExceptOf String m`; `await` is monadic sequencing, `throw` inside an
async function is monadic `throw`, and a JavaScript `Error` is modelled by
its message string (both errors raised by this library are
`new Error(message)` values).  Instantiating `m := Except String` gives the
plain input/output semantics; instantiating `m` with a call-trace monad
makes the number and order of dispatcher invocations observable.
-/

/-- A serializable JavaScript value, as carried across the client/server
boundary by the server-action transport.  Function values never cross the
boundary; callables live in `Resolved` instead, so this type stays a plain
datum with decidable equality. -/
inductive JSVal where
  | str (s : String)
  | num (n : Int)
  | bool (b : Bool)
  | null
  | undefined
deriving DecidableEq, Repr

/-- JavaScript string coercion, as performed by `"Hello, " + name` when
`name` is not a string (`undefined` renders as `"undefined"`, etc.). -/
def jsToString (v : JSVal) : String :=
  match v with
  | JSVal.str s => s
  | JSVal.num n => toString n
  | JSVal.bool b => if b then "true" else "false"
  | JSVal.null => "null"
  | JSVal.undefined => "undefined"

/-- A DI token.  In the source a token is a JavaScript symbol; tokens made
by `createDIToken().as(key)` are global-registry symbols (`Symbol.for`),
for which `Symbol.keyFor` returns the key.  The `key` field records the
result of `Symbol.keyFor`: `some k` for a registry symbol with key `k`,
`none` for a symbol outside the global registry. -/
structure DIToken where
  key : Option String
deriving DecidableEq, Repr

/-- `createDIToken().as(k)` from fioc: the global-registry symbol for `k`. -/
def createDIToken.as (k : String) : DIToken :=
  { key := some k }

/-- The execution environment of a proxy call.  The source discriminates
with `typeof window !== "undefined"`: `client` is the branch where a
browser global is present, `server` the branch where it is absent. -/
inductive ExecutionContext where
  | client
  | server
deriving DecidableEq, Repr

/-- A value registered in (or resolved from) a container: either a callable
implementation — an async function from an argument list to a result in
the ambient monad — or a non-callable plain value (the case the dispatcher
rejects with its `InvalidTarget`-class error). -/
inductive Resolved (m : Type → Type) where
  | func (f : List JSVal → m JSVal)
  | value (v : JSVal)

/-- Modelled from the spec: the dependency container is an external
collaborator (the fioc package, not part of this repository) with
token-keyed get/put semantics; resolution of an unregistered token fails
with a `TokenNotFound`-class error.  Entries are keyed by the token's
string key, faithful to the global symbol registry: `Symbol.for(a)` and
`Symbol.for(b)` are the same symbol exactly when `a = b`. -/
structure DIContainer (m : Type → Type) where
  entries : List (String × Resolved m)

/-- Look up the entry registered under string key `k` (the entry of the
registry symbol `Symbol.for(k)`); `TokenNotFound`-class error when absent. -/
def DIContainer.resolveKey {m : Type → Type}
    (c : DIContainer m) (k : String) : Except String (Resolved m) :=
  match c.entries.find? (fun e => e.fst == k) with
  | some e => Except.ok e.snd
  | none => Except.error ("TokenNotFound: " ++ k)

/-- `container.resolve(token)` from fioc, restricted to the tokens this
library constructs: a registry symbol resolves by its string key; a symbol
outside the registry matches no `createDIToken().as(...)` registration. -/
def DIContainer.resolve {m : Type → Type}
    (c : DIContainer m) (t : DIToken) : Except String (Resolved m) :=
  match t.key with
  | some k => c.resolveKey k
  | none => Except.error "TokenNotFound"

/-- `container.register(createDIToken().as(k), r)`: add an entry under
string key `k`.  A fresh registration shadows an older one for the same
key, which is irrelevant to the claims (they concern distinct keys). -/
def DIContainer.register {m : Type → Type}
    (c : DIContainer m) (k : String) (r : Resolved m) : DIContainer m :=
  { entries := (k, r) :: c.entries }

/-- `buildIOCServerHandler` from `src/common/utils.ts`: wraps a server
container and returns the dispatch function
`async (tokenKey, ...params) => { const token = createDIToken().as(tokenKey);
const resolved = serverContainer.resolve(token); if (typeof resolved !==
"function") throw new Error(...); return await resolved(...params); }`. -/
def buildIOCServerHandler {m : Type → Type} [Monad m] [MonadExceptOf String m]
    (serverContainer : DIContainer m) : String → List JSVal → m JSVal :=
  fun tokenKey params =>
    match serverContainer.resolve (createDIToken.as tokenKey) with
    | Except.error e => throw e
    | Except.ok (Resolved.func resolved) => resolved params
    | Except.ok (Resolved.value _) =>
        throw ("IOCServerHandler: The provided token Symbol(" ++ tokenKey
          ++ ") does not resolve to a function.")

/-- `IOCServerHandlerToken` from `src/common/utils.ts`: the well-known
token under which the dispatcher is registered in the client container. -/
def IOCServerHandlerToken : DIToken :=
  createDIToken.as "IOCServerHandlerToken"

/-- A fioc `DIFactory` descriptor: the registered token, the dependency
tokens the container must resolve first, and the factory producing the
actual value.  For this library's proxies the factory receives the
dispatcher and yields the proxy function; the proxy's environment check
(`typeof window !== "undefined"`) is modelled by the explicit
`ExecutionContext` argument. -/
structure DIFactory (m : Type → Type) where
  token : DIToken
  dependencies : List DIToken
  factory : (String → List JSVal → m JSVal) → ExecutionContext → List JSVal → m JSVal

/-- `serverFactoryProxy` from `src/common/utils.ts`: given a token, the
descriptor `{ token, dependencies: [IOCServerHandlerToken], factory:
(iocServerAction) => async (...args) => { if (typeof window !==
"undefined") return await iocServerAction(Symbol.keyFor(token) ??
"UNDEFINED", ...args); throw new Error("ServerConsumerProxy called in the
server with token (" + Symbol.keyFor(token) + ")"); } }`.  Note JavaScript
template interpolation renders an undefined `Symbol.keyFor` result as the
text `undefined` in the error message. -/
def serverFactoryProxy {m : Type → Type} [Monad m] [MonadExceptOf String m]
    (token : DIToken) : DIFactory m :=
  { token := token
    dependencies := [IOCServerHandlerToken]
    factory := fun iocServerAction ctx args =>
      match ctx with
      | ExecutionContext.client =>
          iocServerAction (token.key.getD "UNDEFINED") args
      | ExecutionContext.server =>
          throw ("ServerConsumerProxy called in the server with token ("
            ++ (match token.key with
                | some k => k
                | none => "undefined") ++ ")") }

/-- `buildIoCServerHandler` from the second source variant: identical body
to `buildIOCServerHandler` except the error message starts with
`IoCServerHandler:`. -/
def buildIoCServerHandler {m : Type → Type} [Monad m] [MonadExceptOf String m]
    (serverContainer : DIContainer m) : String → List JSVal → m JSVal :=
  fun tokenKey params =>
    match serverContainer.resolve (createDIToken.as tokenKey) with
    | Except.error e => throw e
    | Except.ok (Resolved.func resolved) => resolved params
    | Except.ok (Resolved.value _) =>
        throw ("IoCServerHandler: The provided token Symbol(" ++ tokenKey
          ++ ") does not resolve to a function.")

/-- `IoCServerHandlerToken` from the second source variant: same role as
`IOCServerHandlerToken` but registered under a different string key. -/
def IoCServerHandlerToken : DIToken :=
  createDIToken.as "IoCServerHandlerToken"

/-- `createServerControllerProxy` from the second source variant: identical
body to `serverFactoryProxy` except it depends on `IoCServerHandlerToken`
and its server-side error message reads `Server controller proxy called on
the server with token (...)`. -/
def createServerControllerProxy {m : Type → Type} [Monad m] [MonadExceptOf String m]
    (token : DIToken) : DIFactory m :=
  { token := token
    dependencies := [IoCServerHandlerToken]
    factory := fun iocServerAction ctx args =>
      match ctx with
      | ExecutionContext.client =>
          iocServerAction (token.key.getD "UNDEFINED") args
      | ExecutionContext.server =>
          throw ("Server controller proxy called on the server with token ("
            ++ (match token.key with
                | some k => k
                | none => "undefined") ++ ")") }

/-- The concrete scenario implementation from the spec's testable
properties: `(name) => "Hello, " + name`, an async function using its
first argument (JavaScript ignores extra arguments and fills missing ones
with `undefined`). -/
def greet {m : Type → Type} [Monad m] : List JSVal → m JSVal :=
  fun args => pure (JSVal.str ("Hello, " ++ jsToString (args.headD JSVal.undefined)))

/-- The scenario's token, a registry symbol with key `GreetToken`. -/
def GreetToken : DIToken :=
  createDIToken.as "GreetToken"

/-- The scenario's server container: `greet` registered under `GreetToken`. -/
def demoServer {m : Type → Type} [Monad m] : DIContainer m :=
  { entries := [("GreetToken", Resolved.func greet)] }

/-- A record of dispatcher (or implementation) invocations: the string key
and the argument list of each call, in call order. -/
abbrev CallLog := List (String × List JSVal)

/-- Async computations instrumented with a call log: the log survives a
rejection, so a trace shows exactly which calls happened before an error. -/
abbrev TraceM := ExceptT String (StateM CallLog)

/-- An instrumented dispatcher: records its key and argument list in the
call log and fulfils with `undefined`. -/
def logDispatch (k : String) (args : List JSVal) : TraceM JSVal :=
  ExceptT.mk (fun log => (Except.ok JSVal.undefined, log ++ [(k, args)]))

/-- An instrumented registered implementation: records each invocation
under the marker key `impl` and fulfils with `undefined`. -/
def logImpl (args : List JSVal) : TraceM JSVal :=
  ExceptT.mk (fun log => (Except.ok JSVal.undefined, log ++ [("impl", args)]))

/-- A server container whose single entry `K` is the instrumented
implementation `logImpl`. -/
def traceServer : DIContainer TraceM :=
  { entries := [("K", Resolved.func logImpl)] }

/-- Run an instrumented computation from the empty call log, returning the
outcome and the final log. -/
def runTrace {α : Type} (x : TraceM α) : Except String α × CallLog :=
  x.run.run []

/-- An implementation that always rejects with the error `boom`, used to
observe error propagation through the dispatcher. -/
def failImpl {m : Type → Type} [Monad m] [MonadExceptOf String m] :
    List JSVal → m JSVal :=
  fun _ => throw "boom"

/-- A server container registering the always-rejecting implementation
under the key `FailToken`. -/
def failServer {m : Type → Type} [Monad m] [MonadExceptOf String m] :
    DIContainer m :=
  { entries := [("FailToken", Resolved.func failImpl)] }

/-- A server container whose single entry, under the key `ConfigToken`, is
a non-callable plain value. -/
def nonCallableServer {m : Type → Type} : DIContainer m :=
  { entries := [("ConfigToken", Resolved.value JSVal.null)] }

/-- Claim C1: for every server container and every token key that resolves
to a callable implementation, the dispatch function returned by
`buildIOCServerHandler` returns exactly the awaited value the registered
implementation returns on the same arguments — a pure pass-through with no
transformation of the result, in any model of asynchrony `m`. -/
theorem dispatch_returns_implementation_result
    {m : Type → Type} [Monad m] [MonadExceptOf String m]
    (c : DIContainer m) (k : String) (f : List JSVal → m JSVal)
    (args : List JSVal)
    (h : c.resolveKey k = Except.ok (Resolved.func f)) :
    buildIOCServerHandler c k args = f args := by
  simp [buildIOCServerHandler, DIContainer.resolve, createDIToken.as, h]

/-- Witness for C1 at the concrete greeting scenario. -/
theorem dispatch_returns_implementation_result_witness :
    (demoServer (m := Except String)).resolveKey "GreetToken"
        = Except.ok (Resolved.func greet)
      ∧ buildIOCServerHandler (m := Except String) demoServer "GreetToken"
          [JSVal.str "Ann"] = greet [JSVal.str "Ann"] :=
  ⟨rfl, dispatch_returns_implementation_result demoServer "GreetToken" greet
    [JSVal.str "Ann"] rfl⟩

/-- Claim C2: a proxy produced by `serverFactoryProxy`, invoked in a
client execution context, forwards to the dispatcher — with the token's
key as first argument followed by the call's arguments preserved in order
and count — and returns the dispatcher's result; instrumenting the
dispatcher with a call log shows it is invoked exactly once per call. -/
theorem proxy_client_forwards_once
    (t : DIToken) (k : String) (args : List JSVal)
    (h : t.key = some k) :
    (∀ (m : Type → Type) [Monad m] [MonadExceptOf String m]
        (d : String → List JSVal → m JSVal),
        (serverFactoryProxy t).factory d ExecutionContext.client args = d k args)
      ∧ runTrace ((serverFactoryProxy t).factory logDispatch
          ExecutionContext.client args)
          = (Except.ok JSVal.undefined, [(k, args)]) := by
  cases t with
  | mk key =>
    cases h
    exact ⟨fun m _ _ d => rfl, rfl⟩

/-- Witness for C2 at the concrete greeting scenario. -/
theorem proxy_client_forwards_once_witness :
    GreetToken.key = some "GreetToken"
      ∧ runTrace ((serverFactoryProxy GreetToken).factory logDispatch
          ExecutionContext.client [JSVal.str "Ann"])
          = (Except.ok JSVal.undefined, [("GreetToken", [JSVal.str "Ann"])]) :=
  ⟨rfl, (proxy_client_forwards_once GreetToken "GreetToken" [JSVal.str "Ann"] rfl).2⟩

/-- Claim C3: a proxy produced by `serverFactoryProxy`, invoked in a
server execution context, always rejects with the `MisusedProxy`-class
error whose message names the offending token key, and never invokes the
dispatcher: the instrumented run rejects with an empty call log. -/
theorem proxy_server_rejects_without_dispatch
    (t : DIToken) (k : String) (args : List JSVal)
    (h : t.key = some k) :
    (∀ (m : Type → Type) [Monad m] [MonadExceptOf String m]
        (d : String → List JSVal → m JSVal),
        (serverFactoryProxy t).factory d ExecutionContext.server args
          = throw ("ServerConsumerProxy called in the server with token ("
              ++ k ++ ")"))
      ∧ runTrace ((serverFactoryProxy t).factory logDispatch
          ExecutionContext.server args)
          = (Except.error ("ServerConsumerProxy called in the server with token ("
              ++ k ++ ")"), []) := by
  cases t with
  | mk key =>
    cases h
    exact ⟨fun m _ _ d => rfl, rfl⟩

/-- Witness for C3 at the concrete greeting scenario. -/
theorem proxy_server_rejects_without_dispatch_witness :
    GreetToken.key = some "GreetToken"
      ∧ runTrace ((serverFactoryProxy GreetToken).factory logDispatch
          ExecutionContext.server [JSVal.str "Ann"])
          = (Except.error "ServerConsumerProxy called in the server with token (GreetToken)", []) :=
  ⟨rfl, (proxy_server_rejects_without_dispatch GreetToken "GreetToken"
    [JSVal.str "Ann"] rfl).2⟩

/-- Claim C4: for every token key whose resolved server-container value is
a non-callable plain value, the dispatch function rejects with the
`InvalidTarget`-class error (`... does not resolve to a function.`); the
resolved value is not invoked — the call's entire behaviour is that single
rejection, and a non-callable value is not invocable in the model. -/
theorem dispatch_rejects_non_callable
    {m : Type → Type} [Monad m] [MonadExceptOf String m]
    (c : DIContainer m) (k : String) (v : JSVal) (args : List JSVal)
    (h : c.resolveKey k = Except.ok (Resolved.value v)) :
    buildIOCServerHandler c k args
      = throw ("IOCServerHandler: The provided token Symbol(" ++ k
          ++ ") does not resolve to a function.") := by
  simp [buildIOCServerHandler, DIContainer.resolve, createDIToken.as, h]

/-- Witness for C4 at a container holding a non-callable entry. -/
theorem dispatch_rejects_non_callable_witness :
    (nonCallableServer (m := Except String)).resolveKey "ConfigToken"
        = Except.ok (Resolved.value JSVal.null)
      ∧ buildIOCServerHandler (m := Except String) nonCallableServer "ConfigToken" []
          = Except.error "IOCServerHandler: The provided token Symbol(ConfigToken) does not resolve to a function." :=
  ⟨rfl, dispatch_rejects_non_callable nonCallableServer "ConfigToken" JSVal.null [] rfl⟩

/-- Claim C5: distinct keys never cross-resolve.  Registering anything
under a key `kB` different from `kA` leaves dispatching `kA` unchanged —
the token the dispatcher reconstructs from `kA` resolves only to `kA`'s
entry — and in particular, with a callable registered under `kA`, it is
that implementation (never `kB`'s entry) that gets invoked. -/
theorem dispatch_no_cross_resolution
    {m : Type → Type} [Monad m] [MonadExceptOf String m]
    (kA kB : String) (h : kA ≠ kB) (c : DIContainer m) (r : Resolved m)
    (args : List JSVal) :
    (buildIOCServerHandler (c.register kB r) kA args
        = buildIOCServerHandler c kA args)
      ∧ ∀ f, c.resolveKey kA = Except.ok (Resolved.func f) →
          buildIOCServerHandler (c.register kB r) kA args = f args := by
  have hbeq : (kB == kA) = false := by
    simp only [beq_eq_false_iff_ne]
    exact fun e => h e.symm
  have hmain : buildIOCServerHandler (c.register kB r) kA args
      = buildIOCServerHandler c kA args := by
    simp [buildIOCServerHandler, DIContainer.resolve, createDIToken.as,
      DIContainer.resolveKey, DIContainer.register, List.find?, hbeq]
  refine ⟨hmain, fun f hf => ?_⟩
  rw [hmain]
  simp [buildIOCServerHandler, DIContainer.resolve, createDIToken.as, hf]

/-- Witness for C5: adding an unrelated entry does not affect the
greeting dispatch. -/
theorem dispatch_no_cross_resolution_witness :
    ("GreetToken" : String) ≠ "OtherToken"
      ∧ buildIOCServerHandler (m := Except String)
          (demoServer.register "OtherToken" (Resolved.value JSVal.null))
          "GreetToken" [JSVal.str "Ann"]
          = buildIOCServerHandler (m := Except String) demoServer
              "GreetToken" [JSVal.str "Ann"] :=
  ⟨by decide,
    (dispatch_no_cross_resolution "GreetToken" "OtherToken" (by decide)
      demoServer (Resolved.value JSVal.null) [JSVal.str "Ann"]).1⟩

/-- Claim C6: the concrete end-to-end scenario.  With `greet` registered
under `GreetToken` in the server container, the client proxy invoked as
`proxy("Ann")` in a client context resolves to `"Hello, Ann"`, and the
same call in a server context rejects with the `MisusedProxy`-class error
naming `GreetToken`. -/
theorem greet_scenario_end_to_end :
    ((serverFactoryProxy (m := Except String) GreetToken).factory
        (buildIOCServerHandler demoServer) ExecutionContext.client
        [JSVal.str "Ann"]
        = Except.ok (JSVal.str "Hello, Ann"))
      ∧ ((serverFactoryProxy (m := Except String) GreetToken).factory
          (buildIOCServerHandler demoServer) ExecutionContext.server
          [JSVal.str "Ann"]
          = Except.error "ServerConsumerProxy called in the server with token (GreetToken)") :=
  ⟨rfl, rfl⟩

/-- Claim C7: no error is caught or transformed inside the dispatcher or
the proxy.  If the registered implementation rejects with an error `e`,
the dispatch call rejects with that same `e`, unchanged; likewise the
client-context proxy rejects with exactly whatever error the dispatcher
rejects with. -/
theorem errors_propagate_unchanged
    {m : Type → Type} [Monad m] [MonadExceptOf String m]
    (c : DIContainer m) (k : String) (f : List JSVal → m JSVal)
    (args : List JSVal) (e : String)
    (himpl : c.resolveKey k = Except.ok (Resolved.func f))
    (hthrow : f args = throw e) :
    (buildIOCServerHandler c k args = throw e)
      ∧ ∀ (t : DIToken) (d : String → List JSVal → m JSVal),
          d (t.key.getD "UNDEFINED") args = throw e →
          (serverFactoryProxy t).factory d ExecutionContext.client args
            = throw e := by
  constructor
  · simp [buildIOCServerHandler, DIContainer.resolve, createDIToken.as,
      himpl, hthrow]
  · intro t d hd
    simpa [serverFactoryProxy] using hd

/-- Witness for C7 at the always-rejecting implementation. -/
theorem errors_propagate_unchanged_witness :
    (failServer (m := Except String)).resolveKey "FailToken"
        = Except.ok (Resolved.func failImpl)
      ∧ failImpl (m := Except String) [] = Except.error "boom"
      ∧ buildIOCServerHandler (m := Except String) failServer "FailToken" []
          = Except.error "boom" :=
  ⟨rfl, rfl,
    (errors_propagate_unchanged failServer "FailToken" failImpl [] "boom"
      rfl rfl).1⟩

/-- Claim C8: the dispatcher is stateless and caches nothing.  In the pure
embedding its result is by construction a deterministic function of the
closed-over container, the key and the arguments; moreover two sequenced
dispatch calls behave exactly like two independent invocations of the
registered implementation — each call resolves and invokes afresh. -/
theorem dispatch_stateless_no_caching
    {m : Type → Type} [Monad m] [MonadExceptOf String m]
    (c : DIContainer m) (k : String) (f : List JSVal → m JSVal)
    (args : List JSVal)
    (h : c.resolveKey k = Except.ok (Resolved.func f)) :
    (buildIOCServerHandler c k args >>= fun r1 =>
      buildIOCServerHandler c k args >>= fun r2 => pure (r1, r2))
      = (f args >>= fun r1 => f args >>= fun r2 => pure (r1, r2)) := by
  simp [buildIOCServerHandler, DIContainer.resolve, createDIToken.as, h]

/-- Witness for C8: with an instrumented implementation, two sequenced
dispatches record two separate invocations — no caching. -/
theorem dispatch_stateless_no_caching_witness :
    traceServer.resolveKey "K" = Except.ok (Resolved.func logImpl)
      ∧ ((buildIOCServerHandler traceServer "K" [JSVal.num 1] >>= fun r1 =>
          buildIOCServerHandler traceServer "K" [JSVal.num 1] >>= fun r2 =>
          pure (r1, r2))
          = (logImpl [JSVal.num 1] >>= fun r1 =>
              logImpl [JSVal.num 1] >>= fun r2 => pure (r1, r2)))
      ∧ runTrace (buildIOCServerHandler traceServer "K" [JSVal.num 1] >>= fun r1 =>
          buildIOCServerHandler traceServer "K" [JSVal.num 1] >>= fun r2 =>
          pure (r1, r2))
          = (Except.ok (JSVal.undefined, JSVal.undefined),
             [("impl", [JSVal.num 1]), ("impl", [JSVal.num 1])]) :=
  ⟨rfl,
    dispatch_stateless_no_caching traceServer "K" logImpl [JSVal.num 1] rfl,
    rfl⟩

/-- Counterexample to claim C9 as stated: the two variants are not
extensionally equal.  On a key resolving to a non-callable value the two
dispatchers reject with different messages (`IOCServerHandler:` versus
`IoCServerHandler:`), and the two proxy descriptors declare different
dependency lists — their well-known handler tokens have different keys
(`IOCServerHandlerToken` versus `IoCServerHandlerToken`). -/
theorem variants_not_extensionally_equal :
    (buildIOCServerHandler (m := Except String) nonCallableServer "ConfigToken" []
        ≠ buildIoCServerHandler (m := Except String) nonCallableServer "ConfigToken" [])
      ∧ ((serverFactoryProxy (m := Except String) GreetToken).dependencies
          ≠ (createServerControllerProxy (m := Except String) GreetToken).dependencies) := by
  constructor
  · intro h
    exact absurd (Except.error.inj h) (by decide)
  · intro h
    have h' : IOCServerHandlerToken = IoCServerHandlerToken :=
      (List.cons.inj h).1
    exact absurd h' (by decide)

/-- Claim C9, amended: the two source variants agree on every success
path — the dispatchers return identical results whenever the key resolves
to a callable, both reject on a non-callable resolution (with different
message texts), and the proxies forward identically in a client context —
but they are not interchangeable wholesale: error messages and the
well-known handler token key differ between the variants. -/
theorem variants_agree_on_success_paths
    {m : Type → Type} [Monad m] [MonadExceptOf String m]
    (c : DIContainer m) (k : String) (args : List JSVal) :
    (∀ f, c.resolveKey k = Except.ok (Resolved.func f) →
        buildIOCServerHandler c k args = buildIoCServerHandler c k args)
      ∧ (∀ v, c.resolveKey k = Except.ok (Resolved.value v) →
          buildIOCServerHandler c k args
              = throw ("IOCServerHandler: The provided token Symbol(" ++ k
                  ++ ") does not resolve to a function.")
            ∧ buildIoCServerHandler c k args
              = throw ("IoCServerHandler: The provided token Symbol(" ++ k
                  ++ ") does not resolve to a function."))
      ∧ ∀ (t : DIToken) (d : String → List JSVal → m JSVal),
          (serverFactoryProxy t).factory d ExecutionContext.client args
            = (createServerControllerProxy t).factory d ExecutionContext.client args := by
  refine ⟨fun f hf => ?_, fun v hv => ⟨?_, ?_⟩, fun t d => rfl⟩
  · simp [buildIOCServerHandler, buildIoCServerHandler, DIContainer.resolve,
      createDIToken.as, hf]
  · simp [buildIOCServerHandler, DIContainer.resolve, createDIToken.as, hv]
  · simp [buildIoCServerHandler, DIContainer.resolve, createDIToken.as, hv]

/-- Witness for the amended C9 at the concrete greeting scenario. -/
theorem variants_agree_on_success_paths_witness :
    (demoServer (m := Except String)).resolveKey "GreetToken"
        = Except.ok (Resolved.func greet)
      ∧ buildIOCServerHandler (m := Except String) demoServer "GreetToken"
          [JSVal.str "Ann"]
          = buildIoCServerHandler (m := Except String) demoServer "GreetToken"
              [JSVal.str "Ann"] :=
  ⟨rfl,
    (variants_agree_on_success_paths demoServer "GreetToken"
      [JSVal.str "Ann"]).1 greet rfl⟩

/-- Claim C10: for a token whose underlying symbol is not in the global
registry (`Symbol.keyFor` returns `undefined`, modelled as `key = none`),
the client-context proxy forwards the literal string `UNDEFINED` as the
token-key argument instead of any actual key, and the server-context
rejection message renders the key as `undefined`. -/
theorem unregistered_symbol_proxies_undefined_key
    (t : DIToken) (args : List JSVal) (h : t.key = none) :
    (∀ (m : Type → Type) [Monad m] [MonadExceptOf String m]
        (d : String → List JSVal → m JSVal),
        (serverFactoryProxy t).factory d ExecutionContext.client args
          = d "UNDEFINED" args)
      ∧ (∀ (m : Type → Type) [Monad m] [MonadExceptOf String m]
          (d : String → List JSVal → m JSVal),
          (serverFactoryProxy t).factory d ExecutionContext.server args
            = throw "ServerConsumerProxy called in the server with token (undefined)") := by
  cases t with
  | mk key =>
    cases h
    exact ⟨fun m _ _ d => rfl, fun m _ _ d => rfl⟩

/-- Witness for C10 at a concrete non-registry token: the forwarded key is
the literal `UNDEFINED`, observed with the instrumented dispatcher. -/
theorem unregistered_symbol_proxies_undefined_key_witness :
    (DIToken.mk none).key = none
      ∧ (serverFactoryProxy (DIToken.mk none)).factory logDispatch
          ExecutionContext.client [JSVal.num 7]
          = logDispatch "UNDEFINED" [JSVal.num 7] :=
  ⟨rfl,
    (unregistered_symbol_proxies_undefined_key (DIToken.mk none)
      [JSVal.num 7] rfl).1 TraceM logDispatch⟩
